import Mathlib

/-!
# Verification of the sandbox session backend (`src/backend/main.py`)

Shallow embedding of the FastAPI backend that provisions per-project Docker
containers and bridges a WebSocket terminal to a `docker exec` shell.

Conventions of the embedding:
* Python's module-level state (`docker_available`, `active_containers`) and the
  Docker runtime's containers are gathered in `ServerState`.
* `active_containers` is a Python dict; we embed it as an association list with
  unique keys (`dictInsert` removes any previous binding, as dict assignment
  overwrites).
* Docker itself is external to the repository; its commands are modelled by
  `DockerCmd` and their documented semantics (`docker run --name` fails when a
  container with that name already exists; `docker rm` removes a stopped
  container).  Each endpoint returns, besides its result and the new state, the
  list of Docker commands it issued, so "no resource-creation command is
  attempted" is expressible.
* Outcomes of Docker invocations that the code merely observes (bootstrap
  steps, `docker inspect`) are passed in as parameters of type
  `Option DockerResult`, mirroring `run_docker_command` returning `None` on
  timeout/error or a completed process otherwise.
-/

/-- Result of `run_docker_command`: return code, stdout, stderr of the
completed process (`none` models timeout or spawn error). -/
structure DockerResult where
  returncode : Int
  stdout : String
  stderr : String
deriving Repr, DecidableEq

/-- A Docker CLI command issued by the backend (the arguments the code passes
to `run_docker_command` / `subprocess.Popen`). -/
inductive DockerCmd where
  /-- `docker run -d --name <name> ... python:3.11-slim ... sleep` -/
  | run (name : String)
  /-- `docker exec <cid> <args>` (bootstrap steps) -/
  | execCmd (cid : String) (args : List String)
  /-- `docker stop <cid>` -/
  | stop (cid : String)
  /-- `docker rm <cid>` -/
  | rm (cid : String)
  /-- `docker inspect --format State.Running <cid>` -/
  | inspect (cid : String)
deriving Repr, DecidableEq

/-- A container known to the Docker runtime. -/
structure Container where
  name : String
  id : String
  running : Bool
deriving Repr, DecidableEq

/-- Python `str.strip()`: drop leading and trailing whitespace.  Implemented
on the character list so that it evaluates inside the kernel. -/
def pyStrip (s : String) : String :=
  ⟨((s.data.dropWhile Char.isWhitespace).reverse.dropWhile Char.isWhitespace).reverse⟩

/-- Python dict lookup on the association-list embedding. -/
def dictLookup (d : List (String × String)) (k : String) : Option String :=
  match d with
  | [] => none
  | (k', v) :: rest => if k' = k then some v else dictLookup rest k

/-- Python `del d[k]` / absence: remove the binding for `k`. -/
def dictRemove (d : List (String × String)) (k : String) : List (String × String) :=
  d.filter (fun p => p.1 ≠ k)

/-- Python `d[k] = v`: overwrite any previous binding. -/
def dictInsert (d : List (String × String)) (k v : String) : List (String × String) :=
  dictRemove d k ++ [(k, v)]

/-- The backend process state: the module-level flag `docker_available`
(computed once at import), the set of project ids whose `workspace`
subdirectory exists, the module-level dict `active_containers`, and the Docker
runtime's container set. -/
structure ServerState where
  dockerAvailable : Bool
  workspaces : List String
  activeContainers : List (String × String)
  containers : List Container
deriving Repr, DecidableEq

/-- `docker run -d --name name …` : fails when a container with that name
already exists (name conflict), otherwise creates a running container whose
id (`newId`, assigned by the runtime) is printed on stdout. -/
def dockerRun (cs : List Container) (name newId : String) :
    Option DockerResult × List Container :=
  if cs.any (fun c => c.name = name) then
    (some ⟨125, "", "Conflict. The container name is already in use"⟩, cs)
  else
    (some ⟨0, newId ++ "\n", ""⟩, cs ++ [⟨name, newId, true⟩])

/-- `docker stop cid` : marks the container with that id as not running. -/
def dockerStop (cs : List Container) (cid : String) : List Container :=
  cs.map (fun c => if c.id = cid then { c with running := false } else c)

/-- `docker rm cid` : removes the container with that id when it is stopped. -/
def dockerRm (cs : List Container) (cid : String) : List Container :=
  cs.filter (fun c => ¬(c.id = cid ∧ c.running = false))

/-- An `HTTPException` raised by an endpoint. -/
structure HttpError where
  status_code : Int
  detail : String
deriving Repr, DecidableEq

/-- Successful JSON body of `POST /api/projects/{id}/start`. -/
structure StartOk where
  status : String
  container_id : String
  project_id : String
deriving Repr, DecidableEq

/-- Outcomes of the three `run_docker_command` calls made by
`setup_python_environment_subprocess` (venv creation, `test -f
requirements.txt`, `pip install -r`), as delivered by the Docker runtime. -/
structure BootstrapOutcome where
  venvRes : Option DockerResult
  testRes : Option DockerResult
  installRes : Option DockerResult
deriving Repr, DecidableEq

/-- `setup_python_environment_subprocess(container_id)`: creates the venv, and
if `requirements.txt` exists installs from it.  Every failure path merely
prints and returns; the function never raises, so its only observable output
is the list of `docker exec` commands it issued. -/
def setup_python_environment_subprocess (cid : String) (b : BootstrapOutcome) :
    List DockerCmd :=
  let venvCmd := DockerCmd.execCmd cid ["python3", "-m", "venv", "/home/dev/workspace/venv"]
  match b.venvRes with
  | none => [venvCmd]
  | some r =>
    if r.returncode ≠ 0 then [venvCmd]
    else
      let testCmd := DockerCmd.execCmd cid ["test", "-f", "/home/dev/workspace/requirements.txt"]
      match b.testRes with
      | none => [venvCmd, testCmd]
      | some t =>
        if t.returncode = 0 then
          let installCmd := DockerCmd.execCmd cid ["bash", "-c", "pip install -r requirements.txt"]
          [venvCmd, testCmd, installCmd]
        else [venvCmd, testCmd]

/-- `POST /api/projects/{project_id}/start` (`start_container`).  `newId` is
the container id the Docker runtime would assign on a successful `docker run`;
`b` holds the bootstrap outcomes.  Returns the HTTP result, the new server
state and the Docker commands issued, in order. -/
def start_container (st : ServerState) (pid newId : String) (b : BootstrapOutcome) :
    (HttpError ⊕ StartOk) × ServerState × List DockerCmd :=
  if st.dockerAvailable = false then
    (Sum.inl ⟨503, "Docker is not available. Please ensure Docker is running."⟩, st, [])
  else if ¬ pid ∈ st.workspaces then
    (Sum.inl ⟨404, "Workspace not found. Upload a project first."⟩, st, [])
  else
    let name := "web-ide-" ++ pid
    let (res, cs') := dockerRun st.containers name newId
    match res with
    | none =>
      (Sum.inl ⟨500, "Failed to start container: Failed to create container: Unknown error"⟩,
       st, [DockerCmd.run name])
    | some r =>
      if r.returncode ≠ 0 then
        (Sum.inl ⟨500, "Failed to start container: Failed to create container: " ++ r.stderr⟩,
         st, [DockerCmd.run name])
      else
        let cid := pyStrip r.stdout
        let st' := { st with containers := cs',
                             activeContainers := dictInsert st.activeContainers pid cid }
        let bootCmds := setup_python_environment_subprocess cid b
        (Sum.inr ⟨"started", cid, pid⟩, st', DockerCmd.run name :: bootCmds)

/-- Successful JSON body of `DELETE /api/projects/{id}`. -/
structure DeleteOk where
  status : String
  project_id : String
deriving Repr, DecidableEq

/-- `DELETE /api/projects/{project_id}` (`delete_project`): if the project has
a registered container and Docker is available, stop and remove the container
and delete the registry entry; in every case remove the project directory and
report success. -/
def delete_project (st : ServerState) (pid : String) :
    DeleteOk × ServerState × List DockerCmd :=
  match dictLookup st.activeContainers pid, st.dockerAvailable with
  | some cid, true =>
    let cs := dockerRm (dockerStop st.containers cid) cid
    (⟨"deleted", pid⟩,
     { st with containers := cs,
               activeContainers := dictRemove st.activeContainers pid,
               workspaces := st.workspaces.filter (fun w => w ≠ pid) },
     [DockerCmd.stop cid, DockerCmd.rm cid])
  | _, _ =>
    (⟨"deleted", pid⟩,
     { st with workspaces := st.workspaces.filter (fun w => w ≠ pid) }, [])

/-- JSON body of `GET /api/projects/{id}/status`. -/
structure StatusRes where
  project_id : String
  workspace_exists : Bool
  container_running : Bool
  container_id : Option String
deriving Repr, DecidableEq

/-- `GET /api/projects/{project_id}/status` (`get_project_status`).
`inspectRes` is the outcome of the `docker inspect` call (when one is made);
on a failed or errored inspect the code deletes the project's registry entry
before returning the default (not running, no id) status. -/
def get_project_status (st : ServerState) (pid : String)
    (inspectRes : Option DockerResult) :
    StatusRes × ServerState × List DockerCmd :=
  let base : StatusRes := ⟨pid, st.workspaces.contains pid, false, none⟩
  match dictLookup st.activeContainers pid, st.dockerAvailable with
  | some cid, true =>
    (match inspectRes with
     | some r =>
       if r.returncode = 0 then
         ({ base with container_running := pyStrip r.stdout = "true",
                      container_id := some cid }, st, [DockerCmd.inspect cid])
       else
         (base, { st with activeContainers := dictRemove st.activeContainers pid },
          [DockerCmd.inspect cid])
     | none =>
       (base, { st with activeContainers := dictRemove st.activeContainers pid },
        [DockerCmd.inspect cid]))
  | _, _ => (base, st, [])

/-!
## JSON parsing (model of Python's `json.loads`)

`write_to_container` classifies each inbound WebSocket message by the result
of `json.loads`: a decode failure is caught and the message is written to the
shell verbatim; a parsed dict is probed for a `"type": "resize"` field; any
other parsed value makes `resize_data.get(...)` raise `AttributeError`.  We
embed `json.loads` as a recursive-descent parser over the character list,
following the strict JSON grammar Python uses by default (plus the `NaN` /
`Infinity` / `-Infinity` constants Python accepts).  Numeric literals keep
their source text: the bridge never reads a number's value, only the shape of
the parse result.
-/

/-- A JSON value as produced by `json.loads`. -/
inductive JsonVal where
  | null
  | boolean (b : Bool)
  | num (lit : String)
  | str (s : String)
  | arr (elems : List JsonVal)
  | obj (fields : List (String × JsonVal))
deriving Repr

/-- Skip JSON whitespace. -/
def skipWs : List Char → List Char
  | [] => []
  | c :: rest =>
    if c = ' ' ∨ c = '\t' ∨ c = '\n' ∨ c = '\r' then skipWs rest else c :: rest

/-- Strip a literal character sequence from the front of the input. -/
def stripLit : List Char → List Char → Option (List Char)
  | [], l => some l
  | c :: cs, c' :: l => if c = c' then stripLit cs l else none
  | _ :: _, [] => none

/-- One hexadecimal digit. -/
def parseHexDigit (c : Char) : Option Nat :=
  if '0' ≤ c ∧ c ≤ '9' then some (c.toNat - 48)
  else if 'a' ≤ c ∧ c ≤ 'f' then some (c.toNat - 87)
  else if 'A' ≤ c ∧ c ≤ 'F' then some (c.toNat - 55)
  else none

/-- Body of a JSON string, after the opening quote: returns the decoded
characters and the input remaining after the closing quote.  Unescaped
control characters are rejected (Python's strict mode). -/
def parseStrBody : List Char → Option (List Char × List Char)
  | [] => none
  | '"' :: rest => some ([], rest)
  | '\\' :: 'u' :: a :: b :: c :: d :: rest => do
    let ha ← parseHexDigit a
    let hb ← parseHexDigit b
    let hc ← parseHexDigit c
    let hd ← parseHexDigit d
    let (s, r) ← parseStrBody rest
    some (Char.ofNat (((ha * 16 + hb) * 16 + hc) * 16 + hd) :: s, r)
  | '\\' :: e :: rest => do
    let c ← match e with
      | '"' => some '"'
      | '\\' => some '\\'
      | '/' => some '/'
      | 'b' => some (Char.ofNat 8)
      | 'f' => some (Char.ofNat 12)
      | 'n' => some '\n'
      | 'r' => some '\r'
      | 't' => some '\t'
      | _ => none
    let (s, r) ← parseStrBody rest
    some (c :: s, r)
  | c :: rest =>
    if c.toNat < 32 then none
    else do
      let (s, r) ← parseStrBody rest
      some (c :: s, r)

/-- Take a (possibly empty) run of decimal digits. -/
def takeDigits : List Char → List Char × List Char
  | [] => ([], [])
  | c :: rest =>
    if c.isDigit then
      let (ds, r) := takeDigits rest
      (c :: ds, r)
    else ([], c :: rest)

/-- Integer part of a JSON number: `0` or a nonzero digit followed by digits
(leading zeros are rejected, as in strict JSON). -/
def parseIntPart : List Char → Option (List Char × List Char)
  | [] => none
  | '0' :: rest => some (['0'], rest)
  | c :: rest =>
    if c.isDigit then
      let (ds, r) := takeDigits rest
      some (c :: ds, r)
    else none

/-- Optional fractional part `.digits`. -/
def parseFrac : List Char → List Char × List Char
  | '.' :: c :: rest =>
    if c.isDigit then
      let (ds, r) := takeDigits rest
      ('.' :: c :: ds, r)
    else ([], '.' :: c :: rest)
  | l => ([], l)

/-- Optional exponent part `e[+-]digits`. -/
def parseExp (l : List Char) : List Char × List Char :=
  match l with
  | e :: rest =>
    if e = 'e' ∨ e = 'E' then
      match rest with
      | '+' :: c :: r2 =>
        if c.isDigit then
          let (ds, r3) := takeDigits r2
          (e :: '+' :: c :: ds, r3)
        else ([], l)
      | '-' :: c :: r2 =>
        if c.isDigit then
          let (ds, r3) := takeDigits r2
          (e :: '-' :: c :: ds, r3)
        else ([], l)
      | c :: r2 =>
        if c.isDigit then
          let (ds, r3) := takeDigits r2
          (e :: c :: ds, r3)
        else ([], l)
      | [] => ([], l)
    else ([], l)
  | [] => ([], [])

/-- A JSON numeric literal (optionally signed). -/
def parseNumLit (l : List Char) : Option (List Char × List Char) :=
  match l with
  | '-' :: rest => do
    let (ip, r1) ← parseIntPart rest
    let (fp, r2) := parseFrac r1
    let (ep, r3) := parseExp r2
    some ('-' :: (ip ++ fp ++ ep), r3)
  | _ => do
    let (ip, r1) ← parseIntPart l
    let (fp, r2) := parseFrac r1
    let (ep, r3) := parseExp r2
    some (ip ++ fp ++ ep, r3)

mutual

/-- A JSON value (fuelled recursive descent). -/
def parseVal : Nat → List Char → Option (JsonVal × List Char)
  | 0, _ => none
  | fuel + 1, input =>
    let l := skipWs input
    if let some r := stripLit ['n', 'u', 'l', 'l'] l then some (JsonVal.null, r) else
    if let some r := stripLit ['t', 'r', 'u', 'e'] l then some (JsonVal.boolean true, r) else
    if let some r := stripLit ['f', 'a', 'l', 's', 'e'] l then some (JsonVal.boolean false, r) else
    if let some r := stripLit ['N', 'a', 'N'] l then some (JsonVal.num "NaN", r) else
    if let some r := stripLit ['I', 'n', 'f', 'i', 'n', 'i', 't', 'y'] l then
      some (JsonVal.num "Infinity", r) else
    if let some r := stripLit ['-', 'I', 'n', 'f', 'i', 'n', 'i', 't', 'y'] l then
      some (JsonVal.num "-Infinity", r) else
    match l with
    | '"' :: rest => do
      let (cs, r) ← parseStrBody rest
      some (JsonVal.str (String.mk cs), r)
    | '[' :: rest =>
      (match skipWs rest with
       | ']' :: r2 => some (JsonVal.arr [], r2)
       | r1 => do
         let (vs, r2) ← parseElems fuel r1
         some (JsonVal.arr vs, r2))
    | '\x7b' :: rest =>
      (match skipWs rest with
       | '\x7d' :: r2 => some (JsonVal.obj [], r2)
       | r1 => do
         let (fs, r2) ← parseMembers fuel r1
         some (JsonVal.obj fs, r2))
    | _ => do
      let (lit, r) ← parseNumLit l
      some (JsonVal.num (String.mk lit), r)

/-- Comma-separated array elements, up to the closing bracket. -/
def parseElems : Nat → List Char → Option (List JsonVal × List Char)
  | 0, _ => none
  | fuel + 1, l => do
    let (v, r1) ← parseVal fuel l
    match skipWs r1 with
    | ',' :: r3 => do
      let (vs, r4) ← parseElems fuel r3
      some (v :: vs, r4)
    | ']' :: r3 => some ([v], r3)
    | _ => none

/-- Comma-separated object members, up to the closing brace. -/
def parseMembers : Nat → List Char → Option (List (String × JsonVal) × List Char)
  | 0, _ => none
  | fuel + 1, l =>
    match skipWs l with
    | '"' :: rest => do
      let (k, r1) ← parseStrBody rest
      match skipWs r1 with
      | ':' :: r3 => do
        let (v, r4) ← parseVal fuel r3
        match skipWs r4 with
        | ',' :: r6 => do
          let (fs, r7) ← parseMembers fuel r6
          some ((String.mk k, v) :: fs, r7)
        | '\x7d' :: r6 => some ([(String.mk k, v)], r6)
        | _ => none
      | _ => none
    | _ => none

end

/-- Python's `json.loads`: parse one JSON document, allowing surrounding
whitespace, rejecting trailing input. -/
def json_loads (s : String) : Option JsonVal :=
  match parseVal (2 * s.length + 2) s.data with
  | some (v, rest) => if skipWs rest = [] then some v else none
  | none => none

/-- `dict.get` on the dict `json.loads` builds from an object's members:
a later duplicate key overwrites an earlier one. -/
def pyDictGet (fields : List (String × JsonVal)) (k : String) : Option JsonVal :=
  match fields with
  | [] => none
  | (k', v) :: rest =>
    match pyDictGet rest k with
    | some v' => some v'
    | none => if k' = k then some v else none

/-!
## The terminal bridge (`websocket_terminal` and its two pumps)
-/

/-- An observable action of the terminal bridge. -/
inductive BridgeEffect where
  /-- `process.stdin.write(data)` followed by `flush`: bytes reach the shell. -/
  | stdinWrite (s : String)
  /-- A well-formed resize frame was logged and dropped ("for future use"). -/
  | consumedResize (raw : String)
  /-- An actual resize invocation on the backend terminal (never emitted by
  this code; present so the specified behaviour is expressible). -/
  | resizeCall (rows cols : Int)
  /-- `websocket.send_text`. -/
  | wsSend (s : String)
deriving Repr, DecidableEq

/-- Processing of one inbound WebSocket message by `write_to_container`'s loop
body: the effects emitted, and whether the loop continues.  `json.loads`
failures raise `json.JSONDecodeError`, which is caught, and the message falls
through to the raw stdin write.  A parsed dict is probed with
`resize_data.get('type')`: a resize frame is logged and consumed, any other
dict falls through to the raw write.  Any other parsed value (number, list,
string, bool, null) makes `resize_data.get` raise `AttributeError`, which the
`except (json.JSONDecodeError, KeyError)` clause does not catch, so the
message loop terminates without writing anything. -/
def processMsg (data : String) : List BridgeEffect × Bool :=
  match json_loads data with
  | none => ([BridgeEffect.stdinWrite data], true)
  | some (JsonVal.obj fs) =>
    (match pyDictGet fs "type" with
     | some (JsonVal.str t) =>
       if t = "resize" then ([BridgeEffect.consumedResize data], true)
       else ([BridgeEffect.stdinWrite data], true)
     | _ => ([BridgeEffect.stdinWrite data], true))
  | some _ => ([], false)

/-- The inbound pump `write_to_container`, run over the sequence of messages
the WebSocket delivers before disconnecting (exhaustion of the list models
`WebSocketDisconnect` ending the loop normally). -/
def write_to_container : List String → List BridgeEffect
  | [] => []
  | m :: rest =>
    let (effs, cont) := processMsg m
    if cont then effs ++ write_to_container rest else effs

/-- What one iteration of the outbound pump observes: the shell process has
exited (`process.poll() is not None`), one decoded character is available from
`process.stdout.read(1)`, or no data is available (the `asyncio.sleep(0.01)`
branch). -/
inductive ReadEvent where
  | procExit
  | char (c : Char)
  | idle
deriving Repr, DecidableEq

/-- The outbound pump `read_from_container`, run over a finite observation
trace.  Returns the WebSocket sends it performed and whether the loop has
terminated by the end of the trace (`false` = still looping).  The loop stops
when the process has exited, or when a send fails because the socket is
closed; an idle iteration merely sleeps and continues. -/
def read_from_container (wsOpen : Bool) : List ReadEvent → List BridgeEffect × Bool
  | [] => ([], false)
  | ReadEvent.procExit :: _ => ([], true)
  | ReadEvent.char c :: rest =>
    if wsOpen then
      let (effs, b) := read_from_container wsOpen rest
      (BridgeEffect.wsSend (String.mk [c]) :: effs, b)
    else ([], true)
  | ReadEvent.idle :: rest => read_from_container wsOpen rest

/-- Universal-newlines decoding performed by the text-mode pipe wrapper the
code requests with `text=True`: `"\r\n"` and a lone `"\r"` are both decoded
to `"\n"`. -/
def univNewlines : List Char → List Char
  | [] => []
  | '\r' :: '\n' :: rest => '\n' :: univNewlines rest
  | '\r' :: rest => '\n' :: univNewlines rest
  | c :: rest => c :: univNewlines rest

/-- The full outbound path for a given raw shell-output byte sequence, in a
run where the socket stays open and the process stays alive until all output
has been read: the text wrapper decodes the bytes with universal newlines and
the pump sends each decoded character as one text frame. -/
def outboundDelivery (raw : List Char) : List BridgeEffect :=
  (read_from_container true ((univNewlines raw).map ReadEvent.char)).1

/-- Observable outcome of one `websocket_terminal` handler invocation. -/
structure WsOutcome where
  /-- Diagnostic lines sent directly by the handler. -/
  sent : List String
  /-- Effects of the two pumps (their relative interleaving does not affect
  any state recorded here). -/
  effects : List BridgeEffect
  /-- Docker commands issued. -/
  cmds : List DockerCmd
  /-- The handler closed the WebSocket. -/
  closedWs : Bool
  /-- The cleanup terminated the local `docker exec` client process. -/
  cleanupTerminate : Bool
deriving Repr

/-- The WebSocket endpoint `/ws/term/{container_id}` (`websocket_terminal`):
refuses when Docker is unavailable or the container is not inspectably
running; otherwise spawns `docker exec -i <cid> /bin/bash` and runs the two
pumps until both finish, then terminates the local exec client and closes the
socket.  `inspectRes` is the outcome of the `docker inspect` call, `msgs` the
inbound messages and `readTrace` the outbound pump's observation trace. -/
def websocket_terminal (st : ServerState) (cid : String)
    (inspectRes : Option DockerResult) (msgs : List String)
    (readTrace : List ReadEvent) : ServerState × WsOutcome :=
  if st.dockerAvailable = false then
    (st, ⟨["Error: Docker is not available"], [], [], true, false⟩)
  else
    match inspectRes with
    | none =>
      (st, ⟨["Error: Container " ++ cid ++ " not found or not running\r\n"], [],
            [DockerCmd.inspect cid], true, false⟩)
    | some r =>
      if r.returncode ≠ 0 then
        (st, ⟨["Error: Container " ++ cid ++ " not found or not running\r\n"], [],
              [DockerCmd.inspect cid], true, false⟩)
      else if pyStrip r.stdout ≠ "true" then
        (st, ⟨["Error: Container " ++ cid ++ " is not running\r\n"], [],
              [DockerCmd.inspect cid], true, false⟩)
      else
        (st, ⟨[], (read_from_container true readTrace).1 ++ write_to_container msgs,
              [DockerCmd.inspect cid, DockerCmd.execCmd cid ["/bin/bash"]], true, true⟩)

/-- The character carried by a `ReadEvent`, if any. -/
def evChar : ReadEvent → Option Char
  | ReadEvent.char c => some c
  | _ => none

/-!
## Helper lemmas
-/

theorem dictLookup_dictRemove (d : List (String × String)) (k : String) :
    dictLookup (dictRemove d k) k = none := by
  induction d with
  | nil => rfl
  | cons p rest ih =>
    by_cases h : p.1 = k
    · simpa [dictRemove, List.filter_cons, h] using ih
    · simpa [dictRemove, List.filter_cons, h, dictLookup] using ih

theorem dockerRm_stop_all (cs : List Container) (cid : String) :
    (dockerRm (dockerStop cs cid) cid).all (fun c => c.id != cid) = true := by
  simp only [dockerStop, dockerRm, List.all_eq_true, List.mem_filter, List.mem_map]
  intro c hc
  obtain ⟨⟨x, hx, hfx⟩, hpred⟩ := hc
  subst hfx
  by_cases h : x.id = cid
  · simp [h] at hpred
  · simp [h]

theorem no_resizeCall_processMsg (m : String) (r c : Int) :
    BridgeEffect.resizeCall r c ∉ (processMsg m).1 := by
  unfold processMsg
  rcases json_loads m with _ | v
  · simp
  · rcases v with _ | b | lit | s | es | fs
    · simp
    · simp
    · simp
    · simp
    · simp
    · rcases h : pyDictGet fs "type" with _ | w
      · simp [h]
      · rcases w with _ | b | lit | s | es | fs2
        · simp [h]
        · simp [h]
        · simp [h]
        · simp only [h]
          by_cases ht : s = "resize" <;> simp [ht]
        · simp [h]
        · simp [h]

theorem no_resizeCall_write (msgs : List String) (r c : Int) :
    BridgeEffect.resizeCall r c ∉ write_to_container msgs := by
  induction msgs with
  | nil => simp [write_to_container]
  | cons m rest ih =>
    simp only [write_to_container]
    by_cases hc : (processMsg m).2
    · simp [hc, List.mem_append, ih, no_resizeCall_processMsg]
    · simp [hc, no_resizeCall_processMsg]

theorem read_pump_sends (evs : List ReadEvent) (hP : ReadEvent.procExit ∉ evs) :
    (read_from_container true evs).1
      = (evs.filterMap evChar).map (fun c => BridgeEffect.wsSend (String.mk [c])) := by
  induction evs with
  | nil => rfl
  | cons e rest ih =>
    rcases e with _ | c | _
    · exact absurd (by simp) hP
    · have hrest : ReadEvent.procExit ∉ rest := fun hx => hP (by simp [hx])
      simp [read_from_container, evChar, List.filterMap_cons, ih hrest]
    · have hrest : ReadEvent.procExit ∉ rest := fun hx => hP (by simp [hx])
      simp [read_from_container, evChar, List.filterMap_cons, ih hrest]

theorem write_raw (msgs : List String) (hM : ∀ m ∈ msgs, json_loads m = none) :
    write_to_container msgs = msgs.map BridgeEffect.stdinWrite := by
  induction msgs with
  | nil => rfl
  | cons m rest ih =>
    have hm : json_loads m = none := hM m (by simp)
    have hrest : ∀ x ∈ rest, json_loads x = none := fun x hx => hM x (by simp [hx])
    simp [write_to_container, processMsg, hm, ih hrest]

theorem dictLookup_dictInsert (d : List (String × String)) (k v : String) :
    dictLookup (dictInsert d k v) k = some v := by
  unfold dictInsert
  induction d with
  | nil => simp [dictLookup, dictRemove]
  | cons p rest ih =>
    by_cases h : p.1 = k
    · simpa [dictRemove, List.filter_cons, h] using ih
    · simpa [dictRemove, List.filter_cons, h, dictLookup] using ih

/-!
## Claim theorems
-/

/-- C1 (counterexample): starting the same project twice does not return the
existing session.  From a fresh state, the first start succeeds with container
id `c1`; the second start for the same project does not consult the registry,
issues another `docker run`, and fails with HTTP 500 on the container-name
conflict instead of returning the existing session; exactly the one original
container exists afterwards. -/
theorem start_twice_counterexample :
    (start_container ⟨true, ["p"], [], []⟩ "p" "c1" ⟨none, none, none⟩).1
      = Sum.inr ⟨"started", "c1", "p"⟩ ∧
    (start_container (start_container ⟨true, ["p"], [], []⟩ "p" "c1" ⟨none, none, none⟩).2.1
        "p" "c2" ⟨none, none, none⟩).1
      = Sum.inl ⟨500,
          "Failed to start container: Failed to create container: Conflict. The container name is already in use"⟩ ∧
    (start_container (start_container ⟨true, ["p"], [], []⟩ "p" "c1" ⟨none, none, none⟩).2.1
        "p" "c2" ⟨none, none, none⟩).2.1.containers
      = [⟨"web-ide-p", "c1", true⟩] := by decide

/-- C1 (amended): `start_container` never returns an existing session.  When a
container named for the project already exists, the unconditional `docker run`
fails on the name conflict and the call returns HTTP 500; the registry and the
container set are left unchanged, so two start calls provision exactly one
backend resource, but the second call errors instead of returning the existing
session id. -/
theorem start_existing_name_conflict (st : ServerState) (pid newId : String)
    (b : BootstrapOutcome) (hA : st.dockerAvailable = true) (hW : pid ∈ st.workspaces)
    (hc : st.containers.any (fun c => c.name = "web-ide-" ++ pid) = true) :
    start_container st pid newId b
      = (Sum.inl ⟨500,
          "Failed to start container: Failed to create container: Conflict. The container name is already in use"⟩,
         st, [DockerCmd.run ("web-ide-" ++ pid)]) := by
  unfold start_container
  simp [hA, hW, dockerRun, hc]

/-- Witness for C1 (amended): a state with a live registered container for
project `p`. -/
theorem start_existing_name_conflict_witness :
    start_container ⟨true, ["p"], [("p", "c1")], [⟨"web-ide-p", "c1", true⟩]⟩ "p" "c2"
        ⟨none, none, none⟩
      = (Sum.inl ⟨500,
          "Failed to start container: Failed to create container: Conflict. The container name is already in use"⟩,
         ⟨true, ["p"], [("p", "c1")], [⟨"web-ide-p", "c1", true⟩]⟩,
         [DockerCmd.run "web-ide-p"]) :=
  start_existing_name_conflict ⟨true, ["p"], [("p", "c1")], [⟨"web-ide-p", "c1", true⟩]⟩
    "p" "c2" ⟨none, none, none⟩ rfl (by decide) (by decide)

/-- C6: if Docker was found unreachable at backend initialization
(`docker_available = False`), every start request fails with HTTP 503, issues
no Docker command at all (so no resource creation and no re-check of
availability), and leaves the state unchanged — hence a subsequent start
request fails identically. -/
theorem start_unavailable_503 (st : ServerState) (pid newId pid2 newId2 : String)
    (b b2 : BootstrapOutcome) (h : st.dockerAvailable = false) :
    start_container st pid newId b
      = (Sum.inl ⟨503, "Docker is not available. Please ensure Docker is running."⟩, st, []) ∧
    (start_container (start_container st pid newId b).2.1 pid2 newId2 b2).1
      = Sum.inl ⟨503, "Docker is not available. Please ensure Docker is running."⟩ := by
  have h1 : start_container st pid newId b
      = (Sum.inl ⟨503, "Docker is not available. Please ensure Docker is running."⟩, st, []) := by
    simp [start_container, h]
  refine ⟨h1, ?_⟩
  rw [h1]
  simp [start_container, h]

/-- Witness for C6 at a concrete unavailable state. -/
theorem start_unavailable_503_witness :
    start_container ⟨false, ["p"], [], []⟩ "p" "c1" ⟨none, none, none⟩
      = (Sum.inl ⟨503, "Docker is not available. Please ensure Docker is running."⟩,
         ⟨false, ["p"], [], []⟩, []) ∧
    (start_container (start_container ⟨false, ["p"], [], []⟩ "p" "c1" ⟨none, none, none⟩).2.1
        "p" "c2" ⟨none, none, none⟩).1
      = Sum.inl ⟨503, "Docker is not available. Please ensure Docker is running."⟩ :=
  start_unavailable_503 ⟨false, ["p"], [], []⟩ "p" "c1" "p" "c2" ⟨none, none, none⟩
    ⟨none, none, none⟩ rfl

/-- C7: the terminal handler never mutates the server state — the
active-sessions registry and the container set are returned unchanged on every
path — and the only Docker commands it can issue are the read-only `inspect`
and the `exec` that spawns the bridged shell; it never stops, removes or
creates a container, so a fresh attach to the same session can succeed
afterwards. -/
theorem websocket_terminal_frame (st : ServerState) (cid : String)
    (inspectRes : Option DockerResult) (msgs : List String) (readTrace : List ReadEvent) :
    (websocket_terminal st cid inspectRes msgs readTrace).1 = st ∧
    ((websocket_terminal st cid inspectRes msgs readTrace).2.cmds = [] ∨
     (websocket_terminal st cid inspectRes msgs readTrace).2.cmds = [DockerCmd.inspect cid] ∨
     (websocket_terminal st cid inspectRes msgs readTrace).2.cmds
       = [DockerCmd.inspect cid, DockerCmd.execCmd cid ["/bin/bash"]]) := by
  unfold websocket_terminal
  by_cases hA : st.dockerAvailable = false
  · simp [hA]
  · rcases inspectRes with _ | r
    · simp [hA]
    · by_cases hr : r.returncode ≠ 0
      · simp [hA, hr]
      · by_cases hs : pyStrip r.stdout ≠ "true"
        · simp [hA, hr, hs]
        · simp [hA, hr, hs]

/-- C8: `delete_project` always reports success; afterwards a registered entry
is gone exactly when Docker is available; a live registered container is
stopped and removed with exactly the commands `stop; rm` while any other call
issues no Docker command; and a repeated delete succeeds with no backend
call (idempotence). -/
theorem delete_project_idempotent (st : ServerState) (pid : String) :
    (delete_project st pid).1 = ⟨"deleted", pid⟩ ∧
    (delete_project st pid).2.2
      = (match dictLookup st.activeContainers pid, st.dockerAvailable with
         | some cid, true => [DockerCmd.stop cid, DockerCmd.rm cid]
         | _, _ => []) ∧
    dictLookup (delete_project st pid).2.1.activeContainers pid
      = (match dictLookup st.activeContainers pid, st.dockerAvailable with
         | some _, true => none
         | r, _ => r) ∧
    ((match dictLookup st.activeContainers pid, st.dockerAvailable with
      | some cid, true => (delete_project st pid).2.1.containers.all (fun c => c.id != cid)
      | _, _ => true) = true) ∧
    (delete_project (delete_project st pid).2.1 pid).1 = ⟨"deleted", pid⟩ ∧
    (delete_project (delete_project st pid).2.1 pid).2.2 = [] := by
  rcases hL : dictLookup st.activeContainers pid with _ | cid
  · rcases hA : st.dockerAvailable with _ | _
    · simp [delete_project, hL, hA]
    · simp [delete_project, hL, hA]
  · rcases hA : st.dockerAvailable with _ | _
    · simp [delete_project, hL, hA]
    · simp [delete_project, hL, hA, dictLookup_dictRemove, dockerRm_stop_all]

/-- C9: once the `docker run` of a start request succeeds, the environment
bootstrap is absorbed: for every possible outcome of the venv-creation,
manifest-test and install steps (including timeouts and nonzero exits), the
start request still returns `started` with the new container id and the
session is registered. -/
theorem start_bootstrap_absorbed (st : ServerState) (pid newId : String)
    (b : BootstrapOutcome) (hA : st.dockerAvailable = true) (hW : pid ∈ st.workspaces)
    (hF : st.containers.any (fun c => c.name = "web-ide-" ++ pid) = false)
    (hId : pyStrip (newId ++ "\n") = newId) :
    (start_container st pid newId b).1 = Sum.inr ⟨"started", newId, pid⟩ ∧
    dictLookup (start_container st pid newId b).2.1.activeContainers pid = some newId := by
  unfold start_container
  simp [hA, hW, dockerRun, hF, hId, dictLookup_dictInsert]

/-- Witness for C9: the venv-creation step fails with a nonzero exit and the
start request still succeeds and registers the session. -/
theorem start_bootstrap_absorbed_witness :
    (start_container ⟨true, ["p"], [], []⟩ "p" "c1" ⟨some ⟨1, "", "venv failed"⟩, none, none⟩).1
      = Sum.inr ⟨"started", "c1", "p"⟩ ∧
    dictLookup (start_container ⟨true, ["p"], [], []⟩ "p" "c1"
        ⟨some ⟨1, "", "venv failed"⟩, none, none⟩).2.1.activeContainers "p" = some "c1" :=
  start_bootstrap_absorbed ⟨true, ["p"], [], []⟩ "p" "c1" ⟨some ⟨1, "", "venv failed"⟩, none, none⟩
    rfl (by decide) (by decide) (by decide)

/-- C10: a status query for a registered project whose `docker inspect` fails
(times out or exits nonzero) reports not-running with no container id and, as
a side effect, deletes the project's registry entry; every later status query
— even one whose inspect would now succeed with `true` — reports no container
id and not running, and leaves the state unchanged. -/
theorem status_inspect_failure_evicts (st : ServerState) (pid cid : String)
    (ir ir2 : Option DockerResult)
    (hL : dictLookup st.activeContainers pid = some cid)
    (hA : st.dockerAvailable = true)
    (hBad : ir = none ∨ ∃ r, ir = some r ∧ r.returncode ≠ 0) :
    (get_project_status st pid ir).1.container_running = false ∧
    (get_project_status st pid ir).1.container_id = none ∧
    dictLookup (get_project_status st pid ir).2.1.activeContainers pid = none ∧
    (get_project_status (get_project_status st pid ir).2.1 pid ir2).1.container_running = false ∧
    (get_project_status (get_project_status st pid ir).2.1 pid ir2).1.container_id = none ∧
    (get_project_status (get_project_status st pid ir).2.1 pid ir2).2.1
      = (get_project_status st pid ir).2.1 := by
  have h1 : get_project_status st pid ir
      = (⟨pid, st.workspaces.contains pid, false, none⟩,
         { st with activeContainers := dictRemove st.activeContainers pid },
         [DockerCmd.inspect cid]) := by
    rcases hBad with h | ⟨r, hr, hrc⟩
    · subst h
      simp [get_project_status, hL, hA]
    · subst hr
      simp [get_project_status, hL, hA, hrc]
  rw [h1]
  have h2 : dictLookup (dictRemove st.activeContainers pid) pid = none :=
    dictLookup_dictRemove _ _
  simp [get_project_status, h2]

/-- Witness for C10: inspect times out once; the entry is evicted and a later
query whose inspect would report `true` still sees no container. -/
theorem status_inspect_failure_evicts_witness :
    (get_project_status ⟨true, ["p"], [("p", "c1")], [⟨"web-ide-p", "c1", true⟩]⟩ "p" none).1.container_running
      = false ∧
    (get_project_status ⟨true, ["p"], [("p", "c1")], [⟨"web-ide-p", "c1", true⟩]⟩ "p" none).1.container_id
      = none ∧
    dictLookup (get_project_status ⟨true, ["p"], [("p", "c1")], [⟨"web-ide-p", "c1", true⟩]⟩
        "p" none).2.1.activeContainers "p" = none ∧
    (get_project_status (get_project_status ⟨true, ["p"], [("p", "c1")], [⟨"web-ide-p", "c1", true⟩]⟩
        "p" none).2.1 "p" (some ⟨0, "true\n", ""⟩)).1.container_running = false ∧
    (get_project_status (get_project_status ⟨true, ["p"], [("p", "c1")], [⟨"web-ide-p", "c1", true⟩]⟩
        "p" none).2.1 "p" (some ⟨0, "true\n", ""⟩)).1.container_id = none ∧
    (get_project_status (get_project_status ⟨true, ["p"], [("p", "c1")], [⟨"web-ide-p", "c1", true⟩]⟩
        "p" none).2.1 "p" (some ⟨0, "true\n", ""⟩)).2.1
      = (get_project_status ⟨true, ["p"], [("p", "c1")], [⟨"web-ide-p", "c1", true⟩]⟩ "p" none).2.1 :=
  status_inspect_failure_evicts ⟨true, ["p"], [("p", "c1")], [⟨"web-ide-p", "c1", true⟩]⟩
    "p" "c1" none (some ⟨0, "true\n", ""⟩) rfl rfl (Or.inl rfl)

/-- C2: the pumps share no cancellation signal.  After the network side has
closed, a live shell process that produces no output keeps the backend-side
read pump looping for any number of iterations — it is never cancelled; it
only stops when output finally arrives and the send on the closed socket
fails.  This contradicts the claim that termination of one pump promptly
cancels the other. -/
theorem read_pump_outlives_closed_socket (n : Nat) (c : Char) :
    (read_from_container false (List.replicate n ReadEvent.idle)).2 = false ∧
    (read_from_container false (List.replicate n ReadEvent.idle ++ [ReadEvent.char c])).2
      = true := by
  constructor
  · induction n with
    | zero => rfl
    | succ k ih => simpa [List.replicate_succ, read_from_container] using ih
  · induction n with
    | zero => simp [read_from_container]
    | succ k ih => simpa [List.replicate_succ, read_from_container] using ih

/-- C3 (counterexample): the bridge never invokes a backend resize operation.
For the concrete resize frame with cols 100 and rows 40, processing consumes
the frame (no stdin write of it, the following raw message is forwarded
intact), but no `resizeCall` effect is ever produced — the frame is only
logged. -/
theorem resize_frame_no_backend_resize_counterexample :
    BridgeEffect.resizeCall 40 100 ∉
      write_to_container ["\x7b\"type\":\"resize\",\"cols\":100,\"rows\":40\x7d", "a"] ∧
    write_to_container ["\x7b\"type\":\"resize\",\"cols\":100,\"rows\":40\x7d", "a"]
      = [BridgeEffect.consumedResize "\x7b\"type\":\"resize\",\"cols\":100,\"rows\":40\x7d",
         BridgeEffect.stdinWrite "a"] := by decide

/-- C3 (amended): a well-formed resize control frame is consumed without
forwarding — no part of it is written to the shell's stdin and the next raw
input message reaches the shell with no frame fragment prepended — but it is
merely logged: no backend resize operation is ever invoked on any message
stream. -/
theorem resize_frame_consumed_not_forwarded (rs m : String) (rest msgs : List String)
    (r c : Int) (fs : List (String × JsonVal))
    (hJ : json_loads rs = some (JsonVal.obj fs))
    (hT : pyDictGet fs "type" = some (JsonVal.str "resize"))
    (hM : json_loads m = none) :
    write_to_container (rs :: m :: rest)
      = BridgeEffect.consumedResize rs :: BridgeEffect.stdinWrite m :: write_to_container rest ∧
    BridgeEffect.resizeCall r c ∉ write_to_container msgs := by
  refine ⟨?_, no_resizeCall_write msgs r c⟩
  simp [write_to_container, processMsg, hJ, hT, hM]

/-- Witness for C3 (amended) at the concrete resize frame followed by a raw
keystroke. -/
theorem resize_frame_consumed_witness :
    write_to_container ["\x7b\"type\":\"resize\",\"cols\":100,\"rows\":40\x7d", "a"]
      = [BridgeEffect.consumedResize "\x7b\"type\":\"resize\",\"cols\":100,\"rows\":40\x7d",
         BridgeEffect.stdinWrite "a"] ∧
    BridgeEffect.resizeCall 24 80 ∉
      write_to_container ["\x7b\"type\":\"resize\",\"cols\":100,\"rows\":40\x7d", "a"] := by
  have h := resize_frame_consumed_not_forwarded
    "\x7b\"type\":\"resize\",\"cols\":100,\"rows\":40\x7d" "a" []
    ["\x7b\"type\":\"resize\",\"cols\":100,\"rows\":40\x7d", "a"] 24 80
    [("type", JsonVal.str "resize"), ("cols", JsonVal.num "100"), ("rows", JsonVal.num "40")]
    rfl rfl rfl
  exact ⟨by rw [h.1]; rfl, h.2⟩

/-- C4: a payload that is valid JSON but not an object — the message `"123"`,
e.g. a user typing `123` and Enter being delivered as one message — is neither
written to the shell nor skipped: `resize_data.get` raises `AttributeError`,
which the `except (json.JSONDecodeError, KeyError)` clause does not catch, so
the inbound pump terminates; the payload is dropped and the following message
`"ls\n"` never reaches the shell. -/
theorem inbound_pump_dies_on_json_number :
    (json_loads "123").isSome = true ∧
    processMsg "123" = ([], false) ∧
    write_to_container ["123", "ls\n"] = [] := by decide

/-- C5 (counterexample): the shell-output byte sequence `a\r\nb` is delivered
to the client as `a`, `\n`, `b` — the text-mode pipe (`text=True`) applies
universal-newline translation, so the delivered sequence is not the emitted
sequence: a byte is lost and `\r\n` is altered to `\n`. -/
theorem outbound_newline_translation_counterexample :
    outboundDelivery "a\r\nb".data
      = [BridgeEffect.wsSend "a", BridgeEffect.wsSend "\n", BridgeEffect.wsSend "b"] ∧
    outboundDelivery "a\r\nb".data
      ≠ "a\r\nb".data.map (fun c => BridgeEffect.wsSend (String.mk [c])) := by decide

/-- C5 (amended): the outbound pump delivers the shell's output in emission
order, one character per frame, with nothing dropped or coalesced — but
through the universal-newlines decoder, so `\r\n` and lone `\r` are delivered
as `\n` rather than verbatim; inbound, every message that fails JSON parsing
(ordinary terminal input) is written to the shell verbatim and in order. -/
theorem bridge_stream_fidelity (raw : List Char) (evs : List ReadEvent) (msgs : List String)
    (hC : evs.filterMap evChar = univNewlines raw)
    (hP : ReadEvent.procExit ∉ evs)
    (hM : ∀ m ∈ msgs, json_loads m = none) :
    (read_from_container true evs).1
      = (univNewlines raw).map (fun c => BridgeEffect.wsSend (String.mk [c])) ∧
    write_to_container msgs = msgs.map BridgeEffect.stdinWrite :=
  ⟨by rw [← hC]; exact read_pump_sends evs hP, write_raw msgs hM⟩

/-- Witness for C5 (amended): shell output `hi\r\n` read with an idle
iteration interleaved, and the raw keystroke message `ls -la` typed by the
client. -/
theorem bridge_stream_fidelity_witness :
    (read_from_container true
        [ReadEvent.char 'h', ReadEvent.idle, ReadEvent.char 'i', ReadEvent.char '\n']).1
      = (univNewlines "hi\r\n".data).map (fun c => BridgeEffect.wsSend (String.mk [c])) ∧
    write_to_container ["ls -la\n"] = ["ls -la\n"].map BridgeEffect.stdinWrite := by
  refine bridge_stream_fidelity "hi\r\n".data
    [ReadEvent.char 'h', ReadEvent.idle, ReadEvent.char 'i', ReadEvent.char '\n']
    ["ls -la\n"] (by decide) (by decide) ?_
  intro m hm
  simp only [List.mem_singleton] at hm
  subst hm
  rfl
